import Mathlib

/-!
Verification development for the Payroll Indonesia customization layer.

The definitions below are a shallow embedding of the client-side form
logic of the repository (BPJS Payment Summary aggregation, reconciliation
of component totals against account-detail totals, validation gates,
the PPh TER detail computations, and the payroll-entry period check).
JavaScript numbers are modelled as rationals; JavaScript truthiness of a
number `x` is modelled as `x ≠ 0`.  Functions whose behaviour the source
only triggers server-side are modelled from the specification and marked
as such in their doc comments.
-/

namespace PayrollIndonesia

/-- Dashboard / message indicator colours used by msgprint and show_alert. -/
inductive Indicator
  | red
  | orange
  | green
  | blue
deriving DecidableEq, Repr

/-- Kinds of messages the BPJS Payment Summary form can raise. -/
inductive MsgKind
  | missingFields
  | invalidMonth
  | missingComponents
  | missingAccountDetails
  | accountMismatch
  | crossMonth
deriving DecidableEq, Repr

/-- Message with its indicator colour, as passed to frappe.msgprint. -/
structure Msg where
  kind : MsgKind
  indicator : Indicator
deriving DecidableEq, Repr

/-- Row of the komponen child table (doctype BPJS Payment Component). -/
structure KomponenRow where
  component : String
  description : String
  amount : ℚ
deriving DecidableEq, Repr

/-- Row of the account_details child table (doctype BPJS Payment Account
Detail); only the amount field takes part in the computations modelled
here. -/
structure AccountDetailRow where
  amount : ℚ
deriving DecidableEq, Repr

/-- Sum of the amount fields of the account_details rows, as accumulated
by the forEach loop in calculate_account_details_total. -/
def account_details_sum (account_details : List AccountDetailRow) : ℚ :=
  (account_details.map (fun d => d.amount)).sum

/-- Embedding of calculate_account_details_total (src/unnamed/part_004
lines 503-522, identical logic in src/unnamed/part_002 lines 622-645).
Given the components total stored on the document and the account_details
rows, it returns the mismatch alert, if one fires, carrying the pair
(account_total, total) that the alert message renders.  The source fires
the alert when the total is truthy, the account total is strictly
positive and the absolute difference exceeds 0.1. -/
def calculate_account_details_total (total : ℚ)
    (account_details : List AccountDetailRow) : Option (ℚ × ℚ) :=
  if total ≠ 0 ∧ 0 < account_details_sum account_details ∧
      1/10 < |total - account_details_sum account_details| then
    some (account_details_sum account_details, total)
  else
    none

/-- The reconciliation warning fires exactly when the components total is
non-zero, the account total is strictly positive, and the absolute
difference exceeds the 0.1 tolerance. -/
theorem calculate_account_details_total_fires_iff (total : ℚ)
    (account_details : List AccountDetailRow) :
    calculate_account_details_total total account_details ≠ none ↔
      (total ≠ 0 ∧ 0 < account_details_sum account_details ∧
        1/10 < |total - account_details_sum account_details|) := by
  unfold calculate_account_details_total
  split <;> simp_all

/-- C9: the reconciliation check suppresses all discrepancy reporting when
either side is zero: with a zero or unset components total, or an
account-details total that is not strictly positive, no mismatch alert is
ever raised no matter how large the difference; the alert fires exactly
when the components total is non-zero, the account total is strictly
positive, and the absolute difference exceeds 0.1. -/
theorem reconcile_warning_guard (total : ℚ)
    (account_details : List AccountDetailRow) :
    (total = 0 → calculate_account_details_total total account_details = none) ∧
    (account_details_sum account_details ≤ 0 →
      calculate_account_details_total total account_details = none) ∧
    (calculate_account_details_total total account_details ≠ none ↔
      (total ≠ 0 ∧ 0 < account_details_sum account_details ∧
        1/10 < |total - account_details_sum account_details|)) := by
  refine ⟨?_, ?_, calculate_account_details_total_fires_iff total account_details⟩
  · intro h
    by_contra hne
    exact ((calculate_account_details_total_fires_iff total account_details).mp hne).1 h
  · intro h
    by_contra hne
    exact absurd
      ((calculate_account_details_total_fires_iff total account_details).mp hne).2.1
      (not_lt.mpr h)

/-- C9 witness: with a zero components total the huge difference 123456 is
not reported, and with an empty account-details table a components total
of 100000 raises nothing either. -/
theorem reconcile_warning_guard_witness :
    calculate_account_details_total 0 [⟨123456⟩] = none ∧
      calculate_account_details_total 100000 [⟨0⟩] = none :=
  ⟨(reconcile_warning_guard 0 [⟨123456⟩]).1 rfl,
    (reconcile_warning_guard 100000 [⟨0⟩]).2.1
      (by norm_num [account_details_sum])⟩

/-- C3 counterexample: the claim says the check deems the two totals
within tolerance exactly when their absolute difference is at most 0.1.
With components total 100000 and an empty account_details table the
difference is 100000, far beyond the tolerance, yet no mismatch is
reported (the check deems the pair within tolerance). -/
theorem reconcile_tolerance_zero_suppression_cex :
    calculate_account_details_total 100000 [] = none ∧
      ¬ (|(100000 : ℚ) - account_details_sum []| ≤ 1/10) := by
  constructor
  · rfl
  · norm_num [account_details_sum]

/-- C3 (amended): provided the components total is non-zero and the
account-details total is strictly positive, the check deems the totals
within tolerance (raises no mismatch alert) exactly when the absolute
difference is at most 0.1; and an out-of-tolerance result carries both
totals for the directional message. -/
theorem reconcile_within_tolerance_iff (total : ℚ)
    (account_details : List AccountDetailRow)
    (h1 : total ≠ 0) (h2 : 0 < account_details_sum account_details) :
    (calculate_account_details_total total account_details = none ↔
        |total - account_details_sum account_details| ≤ 1/10) ∧
      (∀ w, calculate_account_details_total total account_details = some w →
        w = (account_details_sum account_details, total)) := by
  constructor
  · unfold calculate_account_details_total
    split
    · rename_i h
      exact ⟨fun hx => absurd hx (Option.some_ne_none _),
        fun hle => absurd h.2.2 (not_lt.mpr hle)⟩
    · rename_i h
      push_neg at h
      exact ⟨fun _ => h h1 h2, fun _ => rfl⟩
  · intro w hw
    unfold calculate_account_details_total at hw
    split at hw
    · exact (Option.some_inj.mp hw).symm
    · exact absurd hw (by simp)

/-- C3 witness: at the instances named by the claim, actual components total
100000 against an account-details total of 100000.05 is within tolerance,
and against 100000.2 it is out of tolerance. -/
theorem reconcile_within_tolerance_witness :
    ((calculate_account_details_total 100000 [⟨2000001/20⟩] = none ↔
        |(100000 : ℚ) - account_details_sum [⟨2000001/20⟩]| ≤ 1/10) ∧
      (∀ w, calculate_account_details_total 100000 [⟨2000001/20⟩] = some w →
        w = (account_details_sum [⟨2000001/20⟩], 100000))) ∧
    ((calculate_account_details_total 100000 [⟨500001/5⟩] = none ↔
        |(100000 : ℚ) - account_details_sum [⟨500001/5⟩]| ≤ 1/10) ∧
      (∀ w, calculate_account_details_total 100000 [⟨500001/5⟩] = some w →
        w = (account_details_sum [⟨500001/5⟩], 100000))) :=
  ⟨reconcile_within_tolerance_iff 100000 [⟨2000001/20⟩] (by norm_num)
      (by norm_num [account_details_sum]),
    reconcile_within_tolerance_iff 100000 [⟨500001/5⟩] (by norm_num)
      (by norm_num [account_details_sum])⟩

/-- Row of the employee_details child table (doctype BPJS Payment Summary
Detail): the per-category BPJS amounts of one employee. -/
structure EmployeeDetailRow where
  jht_employee : ℚ
  jp_employee : ℚ
  kesehatan_employee : ℚ
  jht_employer : ℚ
  jp_employer : ℚ
  kesehatan_employer : ℚ
  jkk : ℚ
  jkm : ℚ
deriving DecidableEq, Repr

/-- The five per-category totals returned by calculate_employee_totals. -/
structure EmployeeTotals where
  jht_total : ℚ
  jp_total : ℚ
  kesehatan_total : ℚ
  jkk_total : ℚ
  jkm_total : ℚ
deriving DecidableEq, Repr

/-- Embedding of calculate_employee_totals (src/unnamed/part_004 lines
528-552): JHT, JP and Kesehatan sum employee plus employer amounts, JKK
and JKM sum the employer-only figure. -/
def calculate_employee_totals (details : List EmployeeDetailRow) : EmployeeTotals :=
  { jht_total := (details.map (fun d => d.jht_employee + d.jht_employer)).sum
    jp_total := (details.map (fun d => d.jp_employee + d.jp_employer)).sum
    kesehatan_total :=
      (details.map (fun d => d.kesehatan_employee + d.kesehatan_employer)).sum
    jkk_total := (details.map (fun d => d.jkk)).sum
    jkm_total := (details.map (fun d => d.jkm)).sum }

/-- Komponen rows added by update_components_from_employees after it has
cleared the table (src/unnamed/part_004 lines 564-605): one row per
category whose total is strictly positive, in source order. -/
def buildKomponen (t : EmployeeTotals) : List KomponenRow :=
  (if 0 < t.jht_total then
    [⟨"BPJS JHT", "JHT Contribution (Employee + Employer)", t.jht_total⟩] else [])
  ++ (if 0 < t.jp_total then
    [⟨"BPJS JP", "JP Contribution (Employee + Employer)", t.jp_total⟩] else [])
  ++ (if 0 < t.jkk_total then
    [⟨"BPJS JKK", "JKK Contribution (Employer)", t.jkk_total⟩] else [])
  ++ (if 0 < t.jkm_total then
    [⟨"BPJS JKM", "JKM Contribution (Employer)", t.jkm_total⟩] else [])
  ++ (if 0 < t.kesehatan_total then
    [⟨"BPJS Kesehatan", "Kesehatan Contribution (Employee + Employer)",
      t.kesehatan_total⟩] else [])

/-- Embedding of update_components_from_employees (src/unnamed/part_004
lines 558-609): with an empty employee_details table the function returns
immediately and the existing komponen rows are kept; otherwise the
komponen table is cleared and rebuilt from the employee totals. -/
def update_components_from_employees (komponen : List KomponenRow)
    (details : List EmployeeDetailRow) : List KomponenRow :=
  if details = [] then komponen
  else buildKomponen (calculate_employee_totals details)

/-- The five BPJS contribution categories. -/
inductive Category
  | JHT
  | JP
  | JKK
  | JKM
  | Kesehatan
deriving DecidableEq, Repr

/-- Component string used for a category in the komponen table. -/
def componentName : Category → String
  | .JHT => "BPJS JHT"
  | .JP => "BPJS JP"
  | .JKK => "BPJS JKK"
  | .JKM => "BPJS JKM"
  | .Kesehatan => "BPJS Kesehatan"

/-- Projection of the totals structure at one category. -/
def EmployeeTotals.ofCategory (t : EmployeeTotals) : Category → ℚ
  | .JHT => t.jht_total
  | .JP => t.jp_total
  | .JKK => t.jkk_total
  | .JKM => t.jkm_total
  | .Kesehatan => t.kesehatan_total

/-- Summed contribution of one category over an employee_details table. -/
def categoryTotal (c : Category) (details : List EmployeeDetailRow) : ℚ :=
  (calculate_employee_totals details).ofCategory c

/-- Every per-category amount of the row is non-negative. -/
def rowNonneg (d : EmployeeDetailRow) : Prop :=
  0 ≤ d.jht_employee ∧ 0 ≤ d.jp_employee ∧ 0 ≤ d.kesehatan_employee ∧
    0 ≤ d.jht_employer ∧ 0 ≤ d.jp_employer ∧ 0 ≤ d.kesehatan_employer ∧
    0 ≤ d.jkk ∧ 0 ≤ d.jkm

instance (d : EmployeeDetailRow) : Decidable (rowNonneg d) := by
  unfold rowNonneg
  infer_instance

theorem countP_ite_singleton {α : Type} (p : α → Bool) (c : Prop)
    [Decidable c] (a : α) :
    List.countP p (if c then [a] else []) =
      if c then (if p a then 1 else 0) else 0 := by
  split <;> simp [List.countP_cons]

theorem countP_buildKomponen (t : EmployeeTotals) (c : Category) :
    (buildKomponen t).countP (fun r => r.component == componentName c) =
      if 0 < t.ofCategory c then 1 else 0 := by
  cases c <;>
    simp [buildKomponen, List.countP_append, countP_ite_singleton,
      componentName, EmployeeTotals.ofCategory]

theorem categoryTotal_nonneg (c : Category) (details : List EmployeeDetailRow)
    (hnn : ∀ d ∈ details, rowNonneg d) : 0 ≤ categoryTotal c details := by
  cases c <;>
    · refine List.sum_nonneg ?_
      intro x hx
      obtain ⟨d, hd, rfl⟩ := List.mem_map.mp hx
      have h := hnn d hd
      unfold rowNonneg at h
      first
        | exact add_nonneg h.1 h.2.2.2.1
        | exact add_nonneg h.2.1 h.2.2.2.2.1
        | exact add_nonneg h.2.2.1 h.2.2.2.2.2.1
        | exact h.2.2.2.2.2.2.1
        | exact h.2.2.2.2.2.2.2

/-- C2: with a non-empty input set of non-negative contribution lines, the
aggregation emits exactly one komponen row for each category whose summed
amount is non-zero and none for a category all of whose contributing
lines are zero. -/
theorem aggregate_contributions_omits_zero_categories
    (komponen : List KomponenRow) (details : List EmployeeDetailRow)
    (c : Category) (hne : details ≠ [])
    (hnn : ∀ d ∈ details, rowNonneg d) :
    (update_components_from_employees komponen details).countP
        (fun r => r.component == componentName c) =
      if categoryTotal c details ≠ 0 then 1 else 0 := by
  rw [update_components_from_employees, if_neg hne, countP_buildKomponen]
  rcases (categoryTotal_nonneg c details hnn).eq_or_lt with h | h
  · rw [categoryTotal] at h
    simp [← h, categoryTotal]
  · rw [categoryTotal] at h
    simp [h, categoryTotal, (ne_of_gt h)]

/-- Concrete employee row contributing only to JHT. -/
def exDetailJHT : EmployeeDetailRow := ⟨100, 0, 0, 50, 0, 0, 0, 0⟩

/-- C2 witness: one employee contributing only to JHT produces exactly one
JHT row and no JP row. -/
theorem aggregate_contributions_omits_zero_categories_witness :
    ((update_components_from_employees [] [exDetailJHT]).countP
        (fun r => r.component == componentName Category.JHT) =
      if categoryTotal Category.JHT [exDetailJHT] ≠ 0 then 1 else 0) ∧
    ((update_components_from_employees [] [exDetailJHT]).countP
        (fun r => r.component == componentName Category.JP) =
      if categoryTotal Category.JP [exDetailJHT] ≠ 0 then 1 else 0) :=
  ⟨aggregate_contributions_omits_zero_categories [] [exDetailJHT]
      Category.JHT (List.cons_ne_nil _ _) (by decide),
    aggregate_contributions_omits_zero_categories [] [exDetailJHT]
      Category.JP (List.cons_ne_nil _ _) (by decide)⟩

/-- Komponen row present before a re-aggregation. -/
def staleRow : KomponenRow :=
  ⟨"BPJS JHT", "JHT Contribution (Employee + Employer)", 100⟩

/-- C4 counterexample: running the aggregation with an empty input set
leaves the previously existing komponen table untouched, so a stale JHT
row survives although no input line contributes to JHT (the prior
CategoryTotal set is not replaced). -/
theorem reaggregation_empty_input_keeps_stale_cex :
    update_components_from_employees [staleRow] [] = [staleRow] ∧
      categoryTotal Category.JHT [] = 0 := by
  exact ⟨rfl, rfl⟩

/-- C4 (amended): re-running the aggregation on the same input is
idempotent for every input, and for a non-empty input set each run fully
replaces any prior komponen set (the output does not depend on the
previously existing rows). -/
theorem reaggregation_idempotent_and_replaces
    (k₁ k₂ : List KomponenRow) (details : List EmployeeDetailRow) :
    update_components_from_employees
        (update_components_from_employees k₁ details) details =
      update_components_from_employees k₁ details ∧
    (details ≠ [] →
      update_components_from_employees k₁ details =
        update_components_from_employees k₂ details) := by
  by_cases h : details = []
  · subst h
    exact ⟨rfl, fun hne => absurd rfl hne⟩
  · refine ⟨?_, fun _ => ?_⟩
    · simp [update_components_from_employees, h]
    · simp [update_components_from_employees, h]

/-- C4 witness: with one concrete JHT-only employee row the aggregation is
idempotent and independent of the prior komponen rows. -/
theorem reaggregation_idempotent_and_replaces_witness :
    (update_components_from_employees
        (update_components_from_employees [staleRow] [exDetailJHT])
        [exDetailJHT] =
      update_components_from_employees [staleRow] [exDetailJHT]) ∧
    update_components_from_employees [staleRow] [exDetailJHT] =
      update_components_from_employees [] [exDetailJHT] :=
  ⟨(reaggregation_idempotent_and_replaces [staleRow] [] [exDetailJHT]).1,
    (reaggregation_idempotent_and_replaces [staleRow] [] [exDetailJHT]).2
      (List.cons_ne_nil _ _)⟩

/-- The BPJS Payment Summary document, restricted to the fields that take
part in the validate, calculate_total and payment-entry logic modelled
here. -/
structure BPJSPaymentSummary where
  month : Int
  year : Int
  komponen : List KomponenRow
  account_details : List AccountDetailRow
  total : ℚ
  account_total : ℚ
  docstatus : Int
  payment_entry : Option String
deriving DecidableEq, Repr

/-- Embedding of calculate_total (src/unnamed/part_004 lines 482-497): the
total field is recomputed as the sum of the komponen amounts, then the
account-details comparison runs; when its warning fires the account_total
field is set as well.  The optional warning is returned alongside the
updated document. -/
def calculate_total (doc : BPJSPaymentSummary) :
    BPJSPaymentSummary × Option (ℚ × ℚ) :=
  let doc1 : BPJSPaymentSummary :=
    { doc with total := (doc.komponen.map (fun d => d.amount)).sum }
  match calculate_account_details_total doc1.total doc1.account_details with
  | some w => ({ doc1 with account_total := w.1 }, some w)
  | none => (doc1, none)

/-- Outcome of the client-side validate handler: the possibly updated
document, the final value of frappe.validated, and the messages raised in
order. -/
structure ValidateResult where
  doc : BPJSPaymentSummary
  validated : Bool
  messages : List Msg
deriving DecidableEq, Repr

/-- Embedding of the validate handler of BPJS Payment Summary
(src/unnamed/part_002 lines 230-274, identical in src/unnamed/part_004
lines 188-232): missing month or year and an out-of-range month are
rejected red; then totals are recomputed; an empty komponen table is
rejected red; an empty account_details table only raises an orange
message and leaves frappe.validated untouched (true). -/
def validate (doc : BPJSPaymentSummary) : ValidateResult :=
  if doc.month = 0 ∨ doc.year = 0 then
    ⟨doc, false, [⟨.missingFields, .red⟩]⟩
  else if doc.month < 1 ∨ 12 < doc.month then
    ⟨doc, false, [⟨.invalidMonth, .red⟩]⟩
  else
    match calculate_total doc with
    | (doc1, warning) =>
      let alerts : List Msg :=
        match warning with
        | some _ => [⟨.accountMismatch, .orange⟩]
        | none => []
      if doc1.komponen = [] then
        ⟨doc1, false, alerts ++ [⟨.missingComponents, .red⟩]⟩
      else if doc1.account_details = [] then
        ⟨doc1, true, alerts ++ [⟨.missingAccountDetails, .orange⟩]⟩
      else
        ⟨doc1, true, alerts⟩

/-- C5: a document with a valid period but no komponen rows does not pass
validation: frappe.validated ends up false and the red message demanding
at least one BPJS component is raised, so the document cannot finalize. -/
theorem empty_components_block_finalize (doc : BPJSPaymentSummary)
    (h1 : 1 ≤ doc.month) (h2 : doc.month ≤ 12) (h3 : doc.year ≠ 0)
    (h4 : doc.komponen = []) :
    (validate doc).validated = false ∧
      (⟨.missingComponents, .red⟩ : Msg) ∈ (validate doc).messages := by
  have hm0 : ¬(doc.month = 0 ∨ doc.year = 0) := by
    rintro (h | h)
    · omega
    · exact h3 h
  have hm1 : ¬(doc.month < 1 ∨ 12 < doc.month) := by omega
  have hct : calculate_total doc = ({ doc with total := 0 }, none) := by
    unfold calculate_total
    simp [h4, calculate_account_details_total]
  rw [validate, if_neg hm0, if_neg hm1, hct]
  simp [h4]

/-- Concrete draft document with a valid period and no komponen rows. -/
def docNoComponents : BPJSPaymentSummary := ⟨5, 2025, [], [], 0, 0, 0, none⟩

/-- C5 witness: the concrete empty-component document is rejected with the
missing-components message. -/
theorem empty_components_block_finalize_witness :
    (validate docNoComponents).validated = false ∧
      (⟨.missingComponents, .red⟩ : Msg) ∈ (validate docNoComponents).messages :=
  empty_components_block_finalize docNoComponents (by decide) (by decide)
    (by decide) rfl

/-- Concrete submitted-style document with one komponen row and no
account_details rows. -/
def docNoAccountDetails : BPJSPaymentSummary :=
  ⟨5, 2025, [⟨"BPJS JHT", "JHT Contribution (Employee + Employer)", 100⟩],
    [], 0, 0, 0, none⟩

/-- C6 counterexample: a document lacking all account-mapping data still
passes validation (frappe.validated remains true), so the missing mapping
is tolerated rather than rejected, contradicting the claim that the
operation must fail hard. -/
theorem missing_account_details_passes_validation_cex :
    docNoAccountDetails.account_details = [] ∧
      (validate docNoAccountDetails).validated = true := by
  refine ⟨rfl, ?_⟩
  norm_num [validate, calculate_total, calculate_account_details_total,
    account_details_sum, docNoAccountDetails]

/-- C6 (amended): for every document with a valid period, at least one
komponen row and no account-mapping data, validation succeeds
(frappe.validated stays true) and only a non-blocking orange message
asking to set the account details is raised. -/
theorem missing_account_details_warns_only (doc : BPJSPaymentSummary)
    (h1 : 1 ≤ doc.month) (h2 : doc.month ≤ 12) (h3 : doc.year ≠ 0)
    (h4 : doc.komponen ≠ []) (h5 : doc.account_details = []) :
    (validate doc).validated = true ∧
      (⟨.missingAccountDetails, .orange⟩ : Msg) ∈ (validate doc).messages := by
  have hm0 : ¬(doc.month = 0 ∨ doc.year = 0) := by
    rintro (h | h)
    · omega
    · exact h3 h
  have hm1 : ¬(doc.month < 1 ∨ 12 < doc.month) := by omega
  have hct : calculate_total doc =
      ({ doc with total := (doc.komponen.map (fun d => d.amount)).sum }, none) := by
    unfold calculate_total
    simp [h5, calculate_account_details_total, account_details_sum]
  rw [validate, if_neg hm0, if_neg hm1, hct]
  simp [h4, h5]

/-- C6 witness: the concrete document without account details passes
validation with the orange account-details message. -/
theorem missing_account_details_warns_only_witness :
    (validate docNoAccountDetails).validated = true ∧
      (⟨.missingAccountDetails, .orange⟩ : Msg) ∈
        (validate docNoAccountDetails).messages :=
  missing_account_details_warns_only docNoAccountDetails (by decide)
    (by decide) (by decide) (by decide) rfl

/-- Buttons of the refresh handler modelled here (the payment-entry pair). -/
inductive ButtonKind
  | createPaymentEntry
  | viewPaymentEntry
deriving DecidableEq, Repr

/-- Embedding of the payment-entry portion of the refresh handler
(src/payroll_indonesia/payroll_indonesia/doctype/bpjs_payment_summary/
bpjs_payment_summary.js lines 5-37, same guard in src/unnamed/part_002
lines 17-50): the Generate Payment Entry button is offered only on a
submitted document without a payment_entry reference, and the View
Payment Entry button whenever the reference exists. -/
def refresh_buttons (doc : BPJSPaymentSummary) : List ButtonKind :=
  (if doc.docstatus = 1 ∧ doc.payment_entry = none then
    [.createPaymentEntry] else [])
  ++ (if doc.payment_entry ≠ none then [.viewPaymentEntry] else [])

/-- Document together with the number of times the payment-creation
collaborator has been invoked for it. -/
structure SettleState where
  doc : BPJSPaymentSummary
  payments_created : Nat
deriving DecidableEq, Repr

/-- Modelled from the spec: the server-side generate_payment_entry method
behind the Create Payment Entry button is not among the supplied sources.
Following the downstream action gate of the specification (and the
client-side "if not payment_entry" guard), settling a document that
already carries a payment_entry reference returns that reference and
changes nothing, while settling one without a reference records the fresh
reference and invokes the payment-creation collaborator once. -/
def settle (s : SettleState) (fresh : String) : String × SettleState :=
  match s.doc.payment_entry with
  | some r => (r, s)
  | none =>
    (fresh, ⟨{ s.doc with payment_entry := some fresh }, s.payments_created + 1⟩)

/-- References returned by a sequence of settle invocations, each supplied
with a candidate fresh reference. -/
def settleResults : SettleState → List String → List String
  | _, [] => []
  | s, f :: fs => (settle s f).1 :: settleResults (settle s f).2 fs

/-- State after a sequence of settle invocations. -/
def settleIter : SettleState → List String → SettleState
  | s, [] => s
  | s, f :: fs => settleIter (settle s f).2 fs

theorem settle_absorbed (s : SettleState) (r : String)
    (h : s.doc.payment_entry = some r) (fs : List String) :
    settleIter s fs = s ∧ settleResults s fs = List.replicate fs.length r := by
  induction fs with
  | nil => simp [settleIter, settleResults]
  | cons f fs ih =>
      have hs : settle s f = (r, s) := by simp [settle, h]
      simp [settleIter, settleResults, hs, ih, List.replicate_succ]

/-- C1: settling a document that already carries a payment reference
returns the existing reference and creates nothing new; starting from a
document without one, any non-empty sequence of settle invocations
invokes the payment-creation collaborator exactly once and every
invocation returns the same reference; and the client refresh offers the
Create Payment Entry button exactly on submitted documents without a
payment_entry reference. -/
theorem settle_transition_idempotent
    (s : SettleState) (r f : String) (hr : s.doc.payment_entry = some r)
    (s₀ : SettleState) (f₀ : String) (fs : List String)
    (h0 : s₀.doc.payment_entry = none) :
    settle s f = (r, s) ∧
    (settleIter s₀ (f₀ :: fs)).payments_created = s₀.payments_created + 1 ∧
    settleResults s₀ (f₀ :: fs) = List.replicate (f₀ :: fs).length f₀ ∧
    (∀ doc : BPJSPaymentSummary,
      ButtonKind.createPaymentEntry ∈ refresh_buttons doc ↔
        (doc.docstatus = 1 ∧ doc.payment_entry = none)) := by
  have h1 : settle s₀ f₀ =
      (f₀, ⟨{ s₀.doc with payment_entry := some f₀ },
        s₀.payments_created + 1⟩) := by
    simp [settle, h0]
  have habs := settle_absorbed
    ⟨{ s₀.doc with payment_entry := some f₀ }, s₀.payments_created + 1⟩
    f₀ rfl fs
  refine ⟨by simp [settle, hr], ?_, ?_, ?_⟩
  · rw [settleIter, h1, habs.1]
  · rw [settleResults, h1, habs.2]
    simp [List.replicate_succ]
  · intro doc
    by_cases h : doc.docstatus = 1 ∧ doc.payment_entry = none
    · simp [refresh_buttons, h]
    · by_cases h2 : doc.payment_entry = none
      · simp [refresh_buttons, h, h2]
      · simp [refresh_buttons, h, h2]

/-- Concrete settled and unsettled states for the settle-gate witness. -/
def settledState : SettleState := ⟨⟨5, 2025, [], [], 0, 0, 1, some "PE-0001"⟩, 1⟩

/-- Concrete state whose document has no payment reference yet. -/
def unsettledState : SettleState := ⟨⟨5, 2025, [], [], 0, 0, 1, none⟩, 0⟩

/-- C1 witness: the already-settled state returns its existing reference
unchanged, and two settle invocations on the unsettled state create one
payment and both return the first fresh reference. -/
theorem settle_transition_idempotent_witness :
    settle settledState "PE-0002" = ("PE-0001", settledState) ∧
    (settleIter unsettledState ["PE-A", "PE-B"]).payments_created =
      unsettledState.payments_created + 1 ∧
    settleResults unsettledState ["PE-A", "PE-B"] =
      List.replicate (["PE-A", "PE-B"] : List String).length "PE-A" ∧
    (∀ doc : BPJSPaymentSummary,
      ButtonKind.createPaymentEntry ∈ refresh_buttons doc ↔
        (doc.docstatus = 1 ∧ doc.payment_entry = none)) :=
  settle_transition_idempotent settledState "PE-0001" "PE-0002" rfl
    unsettledState "PE-A" ["PE-B"] rfl

/-- Row of the PPh TER Detail child table, restricted to the fields the
penghasilan_bruto and biaya_jabatan handlers use. -/
structure PPhTERDetailRow where
  penghasilan_bruto : ℚ
  biaya_jabatan : ℚ
  penghasilan_netto : ℚ
deriving DecidableEq, Repr

/-- Embedding of the penghasilan_bruto handler of PPh TER Detail
(src/payroll_indonesia/payroll_indonesia/doctype/pph_ter_table/
pph_ter_table.js lines 249-261): for a truthy gross income it sets
biaya_jabatan to min(5 percent of gross, 500000) and penghasilan_netto to
gross minus biaya_jabatan. -/
def penghasilan_bruto_handler (row : PPhTERDetailRow) : PPhTERDetailRow :=
  if row.penghasilan_bruto ≠ 0 then
    { row with
        biaya_jabatan := min (row.penghasilan_bruto * (5/100)) 500000,
        penghasilan_netto :=
          row.penghasilan_bruto - min (row.penghasilan_bruto * (5/100)) 500000 }
  else row

/-- Embedding of the biaya_jabatan handler of PPh TER Detail (same file,
lines 263-270): when both gross income and biaya_jabatan are truthy, the
netto is recomputed as their difference. -/
def biaya_jabatan_handler (row : PPhTERDetailRow) : PPhTERDetailRow :=
  if row.penghasilan_bruto ≠ 0 ∧ row.biaya_jabatan ≠ 0 then
    { row with penghasilan_netto := row.penghasilan_bruto - row.biaya_jabatan }
  else row

/-- C10: for a positive gross income the handler computes biaya_jabatan as
min(5 percent of gross, 500000) and netto as gross minus biaya_jabatan;
the auto-computed biaya_jabatan never exceeds 500000 and equals exactly
5 percent of gross for gross incomes at or below 10000000. -/
theorem biaya_jabatan_auto_computation (row : PPhTERDetailRow)
    (h : 0 < row.penghasilan_bruto) :
    (penghasilan_bruto_handler row).biaya_jabatan =
        min (row.penghasilan_bruto * (5/100)) 500000 ∧
      (penghasilan_bruto_handler row).penghasilan_netto =
        row.penghasilan_bruto - (penghasilan_bruto_handler row).biaya_jabatan ∧
      (penghasilan_bruto_handler row).biaya_jabatan ≤ 500000 ∧
      (row.penghasilan_bruto ≤ 10000000 →
        (penghasilan_bruto_handler row).biaya_jabatan =
          row.penghasilan_bruto * (5/100)) := by
  have hne : row.penghasilan_bruto ≠ 0 := ne_of_gt h
  unfold penghasilan_bruto_handler
  rw [if_pos hne]
  refine ⟨rfl, rfl, min_le_right _ _, fun hb => ?_⟩
  exact min_eq_left (by linarith)

/-- C10 witness: a gross income of 8000000 yields biaya_jabatan 400000 and
netto 7600000. -/
theorem biaya_jabatan_auto_computation_witness :
    (penghasilan_bruto_handler ⟨8000000, 0, 0⟩).biaya_jabatan =
        min ((8000000 : ℚ) * (5/100)) 500000 ∧
      (penghasilan_bruto_handler ⟨8000000, 0, 0⟩).penghasilan_netto =
        8000000 - (penghasilan_bruto_handler ⟨8000000, 0, 0⟩).biaya_jabatan ∧
      (penghasilan_bruto_handler ⟨8000000, 0, 0⟩).biaya_jabatan ≤ 500000 ∧
      ((8000000 : ℚ) ≤ 10000000 →
        (penghasilan_bruto_handler ⟨8000000, 0, 0⟩).biaya_jabatan =
          8000000 * (5/100)) :=
  biaya_jabatan_auto_computation ⟨8000000, 0, 0⟩ (by norm_num)

/-- Calendar date with a 1-based month, as carried by the date fields of
the forms. -/
structure DateYMD where
  year : Int
  month : Int
  day : Int
deriving DecidableEq, Repr

/-- Salary Slip document restricted to the fields the December correction
indicator reads. -/
structure SalarySlip where
  koreksi_pph21 : ℚ
  end_date : Option DateYMD
deriving DecidableEq, Repr

/-- Embedding of the December correction indicator of the Salary Slip
refresh handler (src/payroll_indonesia/public/js/salary_slip.js lines
13-19): with a truthy koreksi_pph21 and an end date in month 12, a
positive correction shows the orange Kurang Bayar indicator and a
negative one the green Lebih Bayar indicator. -/
def december_koreksi_indicator (slip : SalarySlip) :
    Option (String × Indicator) :=
  match slip.end_date with
  | some d =>
    if slip.koreksi_pph21 ≠ 0 ∧ d.month = 12 then
      some (if 0 < slip.koreksi_pph21 then ("Kurang Bayar", Indicator.orange)
        else ("Lebih Bayar", Indicator.green))
    else none
  | none => none

/-- Per-period tax figures of one employee, restricted to the regular
computed withholding and the December correction figure. -/
structure TaxLine where
  computed_tax : ℚ
  correction : ℚ
deriving DecidableEq, Repr

/-- Aggregate reported by the tax line aggregator: the regular monthly
total, and the aggregate December correction held apart from it. -/
structure TaxAggregate where
  total : ℚ
  correction : Option ℚ
deriving DecidableEq, Repr

/-- Modelled from the spec: the Tax Line Aggregator runs server-side and
is absent from the supplied sources; following the specification it sums
the regular computed withholding into the total and, for a December
period (month 12), reports the summed correction figure as a separate
field, never folding it into the regular total. -/
def aggregateTax (lines : List TaxLine) (month : Int) : TaxAggregate :=
  { total := (lines.map (fun l => l.computed_tax)).sum
    correction :=
      if month = 12 then some ((lines.map (fun l => l.correction)).sum)
      else none }

/-- C7: a December aggregation reports the regular total and the
aggregate correction as separate figures; the total only depends on the
regular withholding amounts, never absorbing the corrections; in
particular regular tax 200000 with correction -50000 reports total 200000
and correction -50000, never a merged 150000; and the salary slip
December indicator renders an overpaid correction as the green Lebih
Bayar indicator. -/
theorem december_correction_reported_separately :
    (∀ lines : List TaxLine,
      (aggregateTax lines 12).total =
          (lines.map (fun l => l.computed_tax)).sum ∧
        (aggregateTax lines 12).correction =
          some ((lines.map (fun l => l.correction)).sum) ∧
        (aggregateTax lines 12).total =
          (aggregateTax (lines.map (fun l => { l with correction := 0 })) 12).total) ∧
    aggregateTax [⟨200000, -50000⟩] 12 = ⟨200000, some (-50000)⟩ ∧
    (aggregateTax [⟨200000, -50000⟩] 12).total ≠ 150000 ∧
    december_koreksi_indicator ⟨-50000, some ⟨2025, 12, 31⟩⟩ =
      some ("Lebih Bayar", Indicator.green) := by
  refine ⟨fun lines => ⟨rfl, rfl, ?_⟩, ?_, ?_, ?_⟩
  · simp only [aggregateTax, List.map_map]
    rfl
  · norm_num [aggregateTax]
  · norm_num [aggregateTax]
  · norm_num [december_koreksi_indicator]

/-- Mode of the period resolver: strict same-month, or warning-only. -/
inductive PeriodMode
  | strict
  | warn
deriving DecidableEq, Repr

/-- Error raised when the endpoints span more than one calendar month in
strict mode. -/
inductive CrossPeriodError
  | crossPeriod
deriving DecidableEq, Repr

/-- Canonical (year, month) period identity. -/
structure Period where
  year : Int
  month : Int
deriving DecidableEq, Repr

/-- Embedding of the Payroll Entry validate handler
(src/payroll_indonesia/public/js/payroll_entry.js lines 48-61): when both
dates are present and their months differ, a non-blocking orange
cross-month warning is shown. -/
def payroll_entry_validate (start_date end_date : Option DateYMD) :
    Option Msg :=
  match start_date, end_date with
  | some s, some e =>
    if s.month ≠ e.month then some ⟨.crossMonth, .orange⟩ else none
  | _, _ => none

/-- Modelled from the spec: resolvePeriod with its strict and warn modes
is the period key resolver of the specification; the supplied sources only
contain the warning-style month comparison of the Payroll Entry validate
handler.  Endpoints in the same calendar month resolve to that period;
endpoints spanning months fail with CrossPeriodError in strict mode and
in warn mode resolve to the period of the start date together with a
warning flag. -/
def resolvePeriod (d1 d2 : DateYMD) (mode : PeriodMode) :
    Except CrossPeriodError (Period × Bool) :=
  if d1.year = d2.year ∧ d1.month = d2.month then
    .ok (⟨d1.year, d1.month⟩, false)
  else
    match mode with
    | .strict => .error .crossPeriod
    | .warn => .ok (⟨d1.year, d1.month⟩, true)

/-- C8: endpoints spanning more than one calendar month make resolvePeriod
fail with CrossPeriodError in strict mode, while warn mode returns the
period of the start date together with a warning; and whenever the months
differ the Payroll Entry validate handler shows its non-blocking orange
cross-month warning. -/
theorem resolve_period_strict_and_warn (d1 d2 : DateYMD)
    (h : ¬(d1.year = d2.year ∧ d1.month = d2.month)) :
    resolvePeriod d1 d2 .strict = .error .crossPeriod ∧
      resolvePeriod d1 d2 .warn = .ok (⟨d1.year, d1.month⟩, true) ∧
      (d1.month ≠ d2.month →
        payroll_entry_validate (some d1) (some d2) =
          some ⟨.crossMonth, .orange⟩) := by
  refine ⟨?_, ?_, fun hm => ?_⟩
  · rw [resolvePeriod, if_neg h]
  · rw [resolvePeriod, if_neg h]
  · simp [payroll_entry_validate, hm]

/-- C8 witness: the dates 2025-01-15 and 2025-02-01 fail in strict mode
and resolve to period (2025, 1) with a warning in warn mode, and the
validate handler warns on them. -/
theorem resolve_period_strict_and_warn_witness :
    resolvePeriod ⟨2025, 1, 15⟩ ⟨2025, 2, 1⟩ .strict = .error .crossPeriod ∧
      resolvePeriod ⟨2025, 1, 15⟩ ⟨2025, 2, 1⟩ .warn = .ok (⟨2025, 1⟩, true) ∧
      payroll_entry_validate (some ⟨2025, 1, 15⟩) (some ⟨2025, 2, 1⟩) =
        some ⟨.crossMonth, .orange⟩ := by
  have h := resolve_period_strict_and_warn ⟨2025, 1, 15⟩ ⟨2025, 2, 1⟩ (by decide)
  exact ⟨h.1, h.2.1, h.2.2 (by decide)⟩

end PayrollIndonesia
